import Mathlib

/-!
Verification of the task-management gateway's routing, forwarding and
health-aggregation logic, as implemented in the two observed revisions of
the proxy package (`SmartProxy`, the four `ForwardTo*` handlers, `getEnv`
and `HealthCheck`).

Paths are modelled as lists of characters; Go's `strings.HasPrefix(s, pre)`
is `pre.isPrefixOf s` on the underlying character lists.
-/

set_option linter.unusedVariables false

namespace Gateway

/-- The backend services the gateway can dispatch a request to. -/
inductive Service where
  | auth
  | project
  | task
  | monolith
  deriving DecidableEq, Repr

/-- Outcome of `SmartProxy` on one request: either the request is handed to a
`ForwardTo*` handler for some backend, or (revision 2 only) a JSON error
response with an HTTP status, an error message and a list of route patterns
is written directly. -/
inductive GatewayOutcome where
  | forwarded (s : Service)
  | jsonError (status : Nat) (error : String) (routes : List String)
  deriving DecidableEq, Repr

/-- The literal `"/auth/"` tested by `strings.HasPrefix` in both revisions. -/
def authRoute : List Char := "/auth/".data

/-- The literal `"/projects"` tested by `strings.HasPrefix` in both revisions. -/
def projectsRoute : List Char := "/projects".data

/-- The literal `"/tasks"` tested by `strings.HasPrefix` in both revisions. -/
def tasksRoute : List Char := "/tasks".data

/-- Revision 1 `SmartProxy`: first matching rule wins, everything else is
forwarded to the monolith. -/
def smartProxyRev1 (path : List Char) : GatewayOutcome :=
  if authRoute.isPrefixOf path then .forwarded .auth
  else if projectsRoute.isPrefixOf path then .forwarded .project
  else if tasksRoute.isPrefixOf path then .forwarded .task
  else .forwarded .monolith

/-- The `available_routes` list of revision 2's 404 response. -/
def availableRoutes : List String :=
  ["/auth/*", "/projects/*", "/tasks/*", "/gateway/health"]

/-- Revision 2 `SmartProxy`: first matching rule wins, everything else gets a
404 JSON response listing the available routes. -/
def smartProxyRev2 (path : List Char) : GatewayOutcome :=
  if authRoute.isPrefixOf path then .forwarded .auth
  else if projectsRoute.isPrefixOf path then .forwarded .project
  else if tasksRoute.isPrefixOf path then .forwarded .task
  else .jsonError 404 "Endpoint not found in microservices architecture" availableRoutes

example : smartProxyRev1 "/auth/login".data = .forwarded .auth := by decide
example : smartProxyRev1 "/auth".data = .forwarded .monolith := by decide
example : smartProxyRev2 "/tasks/5".data = .forwarded .task := by decide
example : smartProxyRev2 "/x".data =
    .jsonError 404 "Endpoint not found in microservices architecture" availableRoutes := by decide

/-- The parts of Go's `url.URL` that the Director touches or must preserve. -/
structure URL where
  scheme : String
  host : String
  path : String
  query : String
  deriving DecidableEq, Repr

/-- The parts of Go's `http.Request` that the Director touches or must
preserve.  `host` is the request's `Host` field (the `Host` header sent on
the wire); `headers` are all other headers. -/
structure Request where
  method : String
  url : URL
  host : String
  headers : List (String × String)
  body : String
  deriving DecidableEq, Repr

/-- The resolved backend target (`url.Parse` of the service's base URL). -/
structure BackendTarget where
  scheme : String
  host : String
  deriving DecidableEq, Repr

/-- The `proxy.Director` closure shared by every `ForwardTo*` handler:
`req.URL.Scheme = target.Scheme; req.URL.Host = target.Host;
req.Host = target.Host` (the `log.Printf` is a side effect with no
influence on the request). -/
def director (target : BackendTarget) (req : Request) : Request :=
  { req with
      url := { req.url with scheme := target.scheme, host := target.host },
      host := target.host }

/-- What a `proxy.ErrorHandler` writes to the caller: an HTTP status via
`WriteHeader` and a body via `Write`. -/
structure ProxyErrorResponse where
  status : Nat
  body : String
  deriving DecidableEq, Repr

/-- `ErrorHandler` of `ForwardToAuthService` (identical in both revisions);
`err` is the transport error, which is only logged. -/
def authErrorHandler (err : String) : ProxyErrorResponse :=
  { status := 502, body := "\x7b\"error\": \"Gateway: Auth service unavailable\"\x7d" }

/-- `ErrorHandler` of `ForwardToProjectService` (identical in both revisions). -/
def projectErrorHandler (err : String) : ProxyErrorResponse :=
  { status := 502, body := "\x7b\"error\": \"Gateway: Project service unavailable\"\x7d" }

/-- `ErrorHandler` of `ForwardToTaskService` (identical in both revisions). -/
def taskErrorHandler (err : String) : ProxyErrorResponse :=
  { status := 502, body := "\x7b\"error\": \"Gateway: Task service unavailable\"\x7d" }

/-- `ErrorHandler` of `ForwardToMonolith` (identical in both revisions). -/
def monolithErrorHandler (err : String) : ProxyErrorResponse :=
  { status := 502, body := "\x7b\"error\": \"Gateway: Monolith service unavailable\"\x7d" }

/-- Go's `os.Getenv`: the process environment maps a key to `some value` when
set and `none` when unset, and `os.Getenv` returns `""` for an unset key. -/
def osGetenv (env : String → Option String) (key : String) : String :=
  (env key).getD ""

/-- `getEnv` of revision 2 of the proxy package:
`if value := os.Getenv(key); value != "" \x7b return value \x7d; return defaultValue`. -/
def getEnv (env : String → Option String) (key defaultValue : String) : String :=
  let value := osGetenv env key
  if value ≠ "" then value else defaultValue

/-- Outcome of one `http.Get` probe in `HealthCheck`: `none` when the call
returned a non-nil error (connection/transport failure), `some code` when a
response with status `code` arrived. -/
def classifyProbe : Option Nat → String
  | none => "unreachable"
  | some code => if code = 200 then "healthy" else "unhealthy"

/-- The fields of revision 1's `HealthCheck` JSON response that probe
outcomes determine: the endpoint's HTTP status, `gateway_status`, and the
four per-service status strings. -/
structure HealthReportRev1 where
  httpStatus : Nat
  gatewayStatus : String
  monolithStatus : String
  authStatus : String
  projectStatus : String
  taskStatus : String
  deriving DecidableEq, Repr

/-- Revision 1 `HealthCheck`, as a function of the four probe outcomes
(monolith, auth, project, task). -/
def healthCheckRev1 (monolithProbe authProbe projectProbe taskProbe : Option Nat) :
    HealthReportRev1 :=
  { httpStatus := 200
    gatewayStatus := "healthy"
    monolithStatus := classifyProbe monolithProbe
    authStatus := classifyProbe authProbe
    projectStatus := classifyProbe projectProbe
    taskStatus := classifyProbe taskProbe }

/-- The fields of revision 2's `HealthCheck` JSON response that probe
outcomes determine (revision 2 does not probe the monolith). -/
structure HealthReportRev2 where
  httpStatus : Nat
  gatewayStatus : String
  authStatus : String
  projectStatus : String
  taskStatus : String
  deriving DecidableEq, Repr

/-- Revision 2 `HealthCheck`, as a function of the three probe outcomes
(auth, project, task). -/
def healthCheckRev2 (authProbe projectProbe taskProbe : Option Nat) : HealthReportRev2 :=
  { httpStatus := 200
    gatewayStatus := "healthy"
    authStatus := classifyProbe authProbe
    projectStatus := classifyProbe projectProbe
    taskStatus := classifyProbe taskProbe }

/-- The part of Go's `http.Client` relevant here: its `Timeout` field in
nanoseconds.  Per the `net/http` documentation, a `Timeout` of zero means no
timeout. -/
structure HTTPClient where
  timeoutNanos : Nat
  deriving DecidableEq, Repr

/-- Go's `http.DefaultClient`: the zero-value client, whose `Timeout` is 0. -/
def defaultClient : HTTPClient := { timeoutNanos := 0 }

/-- The client used by every probe in both revisions' `HealthCheck`: each
probe is `http.Get(... + "/health")`, and `http.Get` always uses
`http.DefaultClient`. -/
def healthProbeClient : HTTPClient := defaultClient

/-- A client enforces a bounded (finite, non-zero) timeout exactly when its
`Timeout` field is positive. -/
def boundedTimeout (c : HTTPClient) : Prop := 0 < c.timeoutNanos

/-- Spec-side predicate: `status` is the correct total three-way
classification of probe outcome `probe` — `"unreachable"` exactly on a
transport error, `"healthy"` exactly on status 200, `"unhealthy"` exactly on
any other status. -/
def correctClassification (status : String) (probe : Option Nat) : Prop :=
  (status = "unreachable" ↔ probe = none) ∧
  (status = "healthy" ↔ probe = some 200) ∧
  (status = "unhealthy" ↔ (probe ≠ none ∧ probe ≠ some 200))

theorem classifyProbe_correct (o : Option Nat) :
    correctClassification (classifyProbe o) o := by
  rcases o with _ | c
  · exact ⟨by simp [classifyProbe], by simp [classifyProbe], by simp [classifyProbe]⟩
  · by_cases h : c = 200
    · subst h; exact ⟨by simp [classifyProbe], by simp [classifyProbe], by simp [classifyProbe]⟩
    · refine ⟨by simp [classifyProbe, h], by simp [classifyProbe, h], ?_⟩
      simp [classifyProbe, h]

/-- C1: for every request path `p`, if `p` starts with `"/auth/"` both
revisions' `SmartProxy` dispatch to the auth service; if `p` starts with
`"/projects"` (and not `"/auth/"`) both dispatch to the project service; if
`p` starts with `"/tasks"` (and not `"/auth/"` or `"/projects"`) both
dispatch to the task service — and, the routing function being a function,
each such path is dispatched to exactly that one backend and no other. -/
theorem routing_dispatch_correct (p : List Char) :
    (authRoute.isPrefixOf p = true →
      smartProxyRev1 p = .forwarded .auth ∧ smartProxyRev2 p = .forwarded .auth) ∧
    (authRoute.isPrefixOf p = false → projectsRoute.isPrefixOf p = true →
      smartProxyRev1 p = .forwarded .project ∧ smartProxyRev2 p = .forwarded .project) ∧
    (authRoute.isPrefixOf p = false → projectsRoute.isPrefixOf p = false →
      tasksRoute.isPrefixOf p = true →
      smartProxyRev1 p = .forwarded .task ∧ smartProxyRev2 p = .forwarded .task) := by
  refine ⟨?_, ?_, ?_⟩ <;> intros <;>
    simp_all [smartProxyRev1, smartProxyRev2]

/-- Witness for C1 at the concrete paths `/auth/login`, `/projects/7` and
`/tasks/5`. -/
theorem routing_dispatch_correct_witness :
    (smartProxyRev1 "/auth/login".data = .forwarded .auth ∧
      smartProxyRev2 "/auth/login".data = .forwarded .auth) ∧
    (smartProxyRev1 "/projects/7".data = .forwarded .project ∧
      smartProxyRev2 "/projects/7".data = .forwarded .project) ∧
    (smartProxyRev1 "/tasks/5".data = .forwarded .task ∧
      smartProxyRev2 "/tasks/5".data = .forwarded .task) :=
  ⟨(routing_dispatch_correct "/auth/login".data).1 (by decide),
   (routing_dispatch_correct "/projects/7".data).2.1 (by decide) (by decide),
   (routing_dispatch_correct "/tasks/5".data).2.2 (by decide) (by decide) (by decide)⟩

/-- C2: for every transport error, each backend's `ErrorHandler` writes
exactly HTTP 502 with the JSON body `{"error": "Gateway: <Backend> service
unavailable"}` naming that backend; the response is a constant, so the
transport error itself never reaches the caller. -/
theorem proxy_failure_uniform_502 (err : String) :
    authErrorHandler err =
      { status := 502, body := "\x7b\"error\": \"Gateway: Auth service unavailable\"\x7d" } ∧
    projectErrorHandler err =
      { status := 502, body := "\x7b\"error\": \"Gateway: Project service unavailable\"\x7d" } ∧
    taskErrorHandler err =
      { status := 502, body := "\x7b\"error\": \"Gateway: Task service unavailable\"\x7d" } ∧
    monolithErrorHandler err =
      { status := 502, body := "\x7b\"error\": \"Gateway: Monolith service unavailable\"\x7d" } :=
  ⟨rfl, rfl, rfl, rfl⟩

/-- C3: in both revisions' `HealthCheck`, each probed backend's reported
status is independently the correct total three-way classification of its
probe outcome: `"unreachable"` exactly on a transport error, `"healthy"`
exactly on HTTP 200, `"unhealthy"` exactly on any other status code. -/
theorem health_classification_total (m a p t : Option Nat) :
    correctClassification (healthCheckRev1 m a p t).monolithStatus m ∧
    correctClassification (healthCheckRev1 m a p t).authStatus a ∧
    correctClassification (healthCheckRev1 m a p t).projectStatus p ∧
    correctClassification (healthCheckRev1 m a p t).taskStatus t ∧
    correctClassification (healthCheckRev2 a p t).authStatus a ∧
    correctClassification (healthCheckRev2 a p t).projectStatus p ∧
    correctClassification (healthCheckRev2 a p t).taskStatus t :=
  ⟨classifyProbe_correct m, classifyProbe_correct a, classifyProbe_correct p,
   classifyProbe_correct t, classifyProbe_correct a, classifyProbe_correct p,
   classifyProbe_correct t⟩

/-- C4: for every inbound request and resolved backend target, the Director
changes only the URL scheme, URL host and `Host` header to the target's
values; method, path, query, the other headers and the body are unchanged
(in particular the path keeps the route prefix — no path stripping). -/
theorem director_frame (t : BackendTarget) (req : Request) :
    (director t req).url.scheme = t.scheme ∧
    (director t req).url.host = t.host ∧
    (director t req).host = t.host ∧
    (director t req).method = req.method ∧
    (director t req).url.path = req.url.path ∧
    (director t req).url.query = req.url.query ∧
    (director t req).headers = req.headers ∧
    (director t req).body = req.body :=
  ⟨rfl, rfl, rfl, rfl, rfl, rfl, rfl, rfl⟩

/-- C5: for every combination of probe outcomes (including all backends
unreachable), both revisions' `HealthCheck` respond with HTTP 200 and report
the gateway's own status as the constant `"healthy"`; a probe failure is
never surfaced as an error response. -/
theorem health_endpoint_always_200 (m a p t : Option Nat) :
    (healthCheckRev1 m a p t).httpStatus = 200 ∧
    (healthCheckRev1 m a p t).gatewayStatus = "healthy" ∧
    (healthCheckRev2 a p t).httpStatus = 200 ∧
    (healthCheckRev2 a p t).gatewayStatus = "healthy" :=
  ⟨rfl, rfl, rfl, rfl⟩

/-- C6: every path matching none of the route rules gets a total (non-crash)
fallback: revision 1's `SmartProxy` forwards it to the legacy monolith and
revision 2's returns HTTP 404 with a JSON body listing the available route
patterns. -/
theorem unmatched_route_fallback (p : List Char)
    (h1 : authRoute.isPrefixOf p = false)
    (h2 : projectsRoute.isPrefixOf p = false)
    (h3 : tasksRoute.isPrefixOf p = false) :
    smartProxyRev1 p = .forwarded .monolith ∧
    smartProxyRev2 p =
      .jsonError 404 "Endpoint not found in microservices architecture" availableRoutes := by
  simp [smartProxyRev1, smartProxyRev2, h1, h2, h3]

/-- Witness for C6 at the concrete unmatched path `/users/1`. -/
theorem unmatched_route_fallback_witness :
    smartProxyRev1 "/users/1".data = .forwarded .monolith ∧
    smartProxyRev2 "/users/1".data =
      .jsonError 404 "Endpoint not found in microservices architecture" availableRoutes :=
  unmatched_route_fallback "/users/1".data (by decide) (by decide) (by decide)

/-- C7 counterexample: there is no request path on which the two revisions'
routing decisions for the auth rule differ — both revisions test the
identical literal `"/auth/"`, so the claimed divergence between revisions
does not exist. -/
theorem revisions_never_disagree_on_auth :
    ¬ ∃ p : List Char,
      ¬ ((smartProxyRev1 p = .forwarded .auth) ↔ (smartProxyRev2 p = .forwarded .auth)) := by
  rintro ⟨p, hp⟩
  apply hp
  unfold smartProxyRev1 smartProxyRev2
  cases hA : authRoute.isPrefixOf p <;>
    cases hP : projectsRoute.isPrefixOf p <;>
      cases hT : tasksRoute.isPrefixOf p <;> simp

/-- C7 amended: the two revisions use identical matching for every rule —
for all paths they agree on whether the request goes to auth, project or
task.  The trailing-segment asymmetry is within each single revision, not
between them: in both revisions bare `/auth` does not match the auth rule
(it falls through to the revision's fallback) while bare `/projects` and
bare `/tasks` do match their rules. -/
theorem route_semantics_identical_across_revisions :
    (∀ p : List Char,
      ((smartProxyRev1 p = .forwarded .auth) ↔ (smartProxyRev2 p = .forwarded .auth)) ∧
      ((smartProxyRev1 p = .forwarded .project) ↔ (smartProxyRev2 p = .forwarded .project)) ∧
      ((smartProxyRev1 p = .forwarded .task) ↔ (smartProxyRev2 p = .forwarded .task))) ∧
    smartProxyRev1 "/auth".data = .forwarded .monolith ∧
    smartProxyRev2 "/auth".data =
      .jsonError 404 "Endpoint not found in microservices architecture" availableRoutes ∧
    smartProxyRev1 "/auth/x".data = .forwarded .auth ∧
    smartProxyRev2 "/auth/x".data = .forwarded .auth ∧
    smartProxyRev1 "/projects".data = .forwarded .project ∧
    smartProxyRev2 "/projects".data = .forwarded .project ∧
    smartProxyRev1 "/tasks".data = .forwarded .task ∧
    smartProxyRev2 "/tasks".data = .forwarded .task := by
  refine ⟨?_, by decide, by decide, by decide, by decide, by decide, by decide, by decide,
    by decide⟩
  intro p
  unfold smartProxyRev1 smartProxyRev2
  cases hA : authRoute.isPrefixOf p <;>
    cases hP : projectsRoute.isPrefixOf p <;>
      cases hT : tasksRoute.isPrefixOf p <;> simp

/-- C8 counterexample: the health probes do not carry a bounded timeout —
both revisions issue each probe with `http.Get`, which uses
`http.DefaultClient`, whose `Timeout` is 0, meaning no timeout. -/
theorem health_probe_not_bounded : ¬ boundedTimeout healthProbeClient := by
  simp [boundedTimeout, healthProbeClient, defaultClient]

/-- C8 amended: every health probe in both revisions' `HealthCheck` is issued
through `http.Get`, hence through the default client, whose timeout is zero
(no timeout); so a single unreachable backend can stall the health endpoint
indefinitely. -/
theorem health_probe_timeout_zero : healthProbeClient.timeoutNanos = 0 := rfl

/-- C9: `getEnv` returns the environment value only when the variable is set
to a non-empty string, and returns the built-in default both when the
variable is unset and when it is set to the empty string — an empty-string
override is indistinguishable from an absent one. -/
theorem getEnv_default_semantics (env : String → Option String) (key dv : String) :
    (∀ v, env key = some v → v ≠ "" → getEnv env key dv = v) ∧
    (env key = none → getEnv env key dv = dv) ∧
    (env key = some "" → getEnv env key dv = dv) := by
  refine ⟨?_, ?_, ?_⟩
  · intro v hv hne
    simp [getEnv, osGetenv, hv, hne]
  · intro h
    simp [getEnv, osGetenv, h]
  · intro h
    simp [getEnv, osGetenv, h]

/-- Witness for C9 on a concrete environment: a non-empty override is
returned, and an unset or empty-string variable both yield the default. -/
theorem getEnv_default_semantics_witness :
    getEnv (fun _ => some "http://svc:9000") "AUTH_SERVICE_URL" "http://localhost:8082" =
      "http://svc:9000" ∧
    getEnv (fun _ => none) "AUTH_SERVICE_URL" "http://localhost:8082" =
      "http://localhost:8082" ∧
    getEnv (fun _ => some "") "AUTH_SERVICE_URL" "http://localhost:8082" =
      "http://localhost:8082" :=
  ⟨(getEnv_default_semantics (fun _ => some "http://svc:9000") "AUTH_SERVICE_URL"
      "http://localhost:8082").1 "http://svc:9000" rfl (by decide),
   (getEnv_default_semantics (fun _ => none) "AUTH_SERVICE_URL"
      "http://localhost:8082").2.1 rfl,
   (getEnv_default_semantics (fun _ => some "") "AUTH_SERVICE_URL"
      "http://localhost:8082").2.2 rfl⟩

/-- C10: every path that starts with `"/auth"` but not `"/auth/"` (the bare
`/auth` in particular) is routed to neither revision's auth service:
revision 1 forwards it to the monolith fallback, revision 2 returns the 404
fallback response. -/
theorem bare_auth_not_routed_to_auth (p : List Char)
    (hpre : ("/auth".data).isPrefixOf p = true)
    (hslash : authRoute.isPrefixOf p = false) :
    smartProxyRev1 p = .forwarded .monolith ∧
    smartProxyRev2 p =
      .jsonError 404 "Endpoint not found in microservices architecture" availableRoutes := by
  have hauth : "/auth".data <+: p := List.isPrefixOf_iff_prefix.mp hpre
  have hP : projectsRoute.isPrefixOf p = false := by
    rw [Bool.eq_false_iff]
    intro hc
    have hc' : projectsRoute <+: p := List.isPrefixOf_iff_prefix.mp hc
    rcases List.prefix_or_prefix_of_prefix hauth hc' with h | h
    · exact absurd h (by decide)
    · exact absurd h (by decide)
  have hT : tasksRoute.isPrefixOf p = false := by
    rw [Bool.eq_false_iff]
    intro hc
    have hc' : tasksRoute <+: p := List.isPrefixOf_iff_prefix.mp hc
    rcases List.prefix_or_prefix_of_prefix hauth hc' with h | h
    · exact absurd h (by decide)
    · exact absurd h (by decide)
  simp [smartProxyRev1, smartProxyRev2, hslash, hP, hT]

/-- Witness for C10 at the concrete paths `/auth` and `/authx`. -/
theorem bare_auth_not_routed_to_auth_witness :
    (smartProxyRev1 "/auth".data = .forwarded .monolith ∧
      smartProxyRev2 "/auth".data =
        .jsonError 404 "Endpoint not found in microservices architecture" availableRoutes) ∧
    (smartProxyRev1 "/authx".data = .forwarded .monolith ∧
      smartProxyRev2 "/authx".data =
        .jsonError 404 "Endpoint not found in microservices architecture" availableRoutes) :=
  ⟨bare_auth_not_routed_to_auth "/auth".data (by decide) (by decide),
   bare_auth_not_routed_to_auth "/authx".data (by decide) (by decide)⟩

end Gateway
